import Mathlib

/-- Python `str.strip` whitespace set (ASCII fragment). -/
def pyIsSpace (c : Char) : Bool :=
  c = ' ' || c = '\t' || c = '\n' || c = '\r' || c = '\x0b' || c = '\x0c'

/-- Python `str.strip()`: drop leading and trailing whitespace. -/
def pyStrip (s : String) : String :=
  ⟨((s.data.dropWhile pyIsSpace).reverse.dropWhile pyIsSpace).reverse⟩

/-- Python `str.lower()` (ASCII fragment): lowercase each character. -/
def lowerStr (s : String) : String :=
  ⟨s.data.map Char.toLower⟩

/-- `leadsWith n h`: the character list `n` starts the character list `h`. -/
def leadsWith : List Char → List Char → Bool
  | [], _ => true
  | _ :: _, [] => false
  | a :: as, b :: bs => a == b && leadsWith as bs

/-- `hasSub n h`: `n` occurs as a contiguous sublist of `h`
(Python's `n in h` on strings). -/
def hasSub (needle : List Char) : List Char → Bool
  | [] => needle.isEmpty
  | b :: bs => leadsWith needle (b :: bs) || hasSub needle bs

/-- Python `needle in hay` for strings: literal substring test. -/
def strHas (hay needle : String) : Bool :=
  hasSub needle.data hay.data

/-- The result shape `{label, score}` returned by `analyze_sentiment`. -/
structure SentimentResult where
  label : String
  score : ℚ
  deriving DecidableEq, Repr

/-- The positive keyword/emoji table of the fallback heuristic
(`main.py` line 84; the emoji are the file's literal mojibake sequences). -/
def positives : List String :=
  ["happy", "great", "awesome", "love", "good", "ðŸ˜Š",
   ":)", "ðŸ˜€", "ðŸ˜„",
   "ðŸ˜Ž", "ðŸ‘"]

/-- The negative keyword/emoji table of the fallback heuristic
(`main.py` line 85). -/
def negatives : List String :=
  ["sad", "bad", "terrible", "hate", "angry", "ðŸ˜¢",
   ":(", "ðŸ˜­", "ðŸ˜¡",
   "ðŸ˜ž", "ðŸ‘Ž"]

/-- Round-half-to-even of a rational to an integer (Python `round`). -/
def roundHalfEven (q : ℚ) : ℤ :=
  if q - (⌊q⌋ : ℚ) < 1/2 then ⌊q⌋
  else if 1/2 < q - (⌊q⌋ : ℚ) then ⌊q⌋ + 1
  else if ⌊q⌋ % 2 = 0 then ⌊q⌋ else ⌊q⌋ + 1

/-- Python `round(x, 4)`. -/
def pyRound4 (q : ℚ) : ℚ :=
  (roundHalfEven (q * 10000) : ℚ) / 10000

/-- `POST /api/sentiment` handler (`main.py` lines 75-101).
`analyzerAvailable` models whether the VADER import succeeded at startup;
`polarity` is the analyzer oracle returning the compound score
(`analyzer.polarity_scores(text)["compound"]`). -/
def analyze_sentiment (analyzerAvailable : Bool) (polarity : String → ℚ)
    (textIn : String) : SentimentResult :=
  let text := pyStrip textIn
  if text = "" then ⟨"NEUTRAL", 0⟩
  else if analyzerAvailable = false then
    let lower := lowerStr text
    let p := positives.countP (fun w => strHas lower w)
    let n := negatives.countP (fun w => strHas lower w)
    if n < p then ⟨"POSITIVE", min 1 (6/10 + (1/10) * ((p : ℚ) - (n : ℚ)))⟩
    else if p < n then ⟨"NEGATIVE", min 1 (6/10 + (1/10) * ((n : ℚ) - (p : ℚ)))⟩
    else ⟨"NEUTRAL", 1/2⟩
  else
    let compound := polarity text
    let label :=
      if 2/10 ≤ compound then "POSITIVE"
      else if compound ≤ -(2/10) then "NEGATIVE"
      else "NEUTRAL"
    ⟨label, pyRound4 compound⟩

/-- Happy-mood keyword/emoji table (`main.py` line 126). -/
def happyKeys : List String :=
  ["happy", "great", "good", "joy", "excited",
   "ðŸ˜Š", "ðŸ˜€",
   "ðŸ˜„", "ðŸ˜Ž", ":)"]

/-- Sad-mood keyword/emoji table (`main.py` line 128). -/
def sadKeys : List String :=
  ["sad", "down", "tired", "low", "anxious",
   "ðŸ˜¢", "ðŸ˜­",
   ":(", "ðŸ˜ž"]

/-- Angry-mood keyword/emoji table (`main.py` line 130). -/
def angryKeys : List String :=
  ["angry", "frustrated", "mad", "ðŸ˜¡"]

/-- The six weather phrases of `vibe_note`, in priority order
(rain, cloud, clear, snow, storm, generic). -/
def weatherPhrases : List String :=
  ["the rhythm of the rain sets a calm tempo",
   "soft clouds invite reflection and slow moments",
   "clear skies spark light and optimism",
   "snow hushes the world into a gentle hush",
   "storms rumble, but you carry quiet courage",
   "the air feels open to possibility"]

/-- The four mood phrases of `vibe_note`, in priority order
(happy, sad, angry, default); the dashes and apostrophe reproduce the
file's literal mojibake sequences. -/
def moodPhrases : List String :=
  ["your energy feels bright and contagious",
   "be gentle with yourselfâ€”small steps are still progress",
   "take a breath; let movement help shift the heat",
   "youâ€™re steady and presentâ€”keep following the simple good"]

/-- `POST /api/vibe-note` handler (`main.py` lines 103-136). -/
def vibe_note (moodIn : String) (weather_main weather_desc : Option String) :
    String :=
  let mood := pyStrip moodIn
  let wm := lowerStr (weather_main.getD "")
  let wd := lowerStr (weather_desc.getD "")
  let base := "Today"
  let weather_phrase :=
    if strHas wm "rain" || strHas wm "drizzle" then
      "the rhythm of the rain sets a calm tempo"
    else if strHas wm "cloud" || strHas wd "overcast" then
      "soft clouds invite reflection and slow moments"
    else if strHas wm "clear" then
      "clear skies spark light and optimism"
    else if strHas wm "snow" then
      "snow hushes the world into a gentle hush"
    else if strHas wm "storm" || strHas wm "thunder" then
      "storms rumble, but you carry quiet courage"
    else
      "the air feels open to possibility"
  let mood_lower := lowerStr mood
  let mood_phrase :=
    if happyKeys.any (fun k => strHas mood_lower k) then
      "your energy feels bright and contagious"
    else if sadKeys.any (fun k => strHas mood_lower k) then
      "be gentle with yourselfâ€”small steps are still progress"
    else if angryKeys.any (fun k => strHas mood_lower k) then
      "take a breath; let movement help shift the heat"
    else
      "youâ€™re steady and presentâ€”keep following the simple good"
  base ++ ", " ++ weather_phrase ++ "; " ++ mood_phrase ++ "."

/-- Weather-phrase selection, written out as the spec's §4.3 priority list
(first match wins: rain/drizzle in weatherMain; cloud in weatherMain or
overcast in weatherDesc; clear; snow; storm/thunder; else generic).
Arguments are the already-lowercased weatherMain and weatherDesc. -/
def weatherPhraseSpec (wm wd : String) : String :=
  if strHas wm "rain" || strHas wm "drizzle" then
    "the rhythm of the rain sets a calm tempo"
  else if strHas wm "cloud" || strHas wd "overcast" then
    "soft clouds invite reflection and slow moments"
  else if strHas wm "clear" then
    "clear skies spark light and optimism"
  else if strHas wm "snow" then
    "snow hushes the world into a gentle hush"
  else if strHas wm "storm" || strHas wm "thunder" then
    "storms rumble, but you carry quiet courage"
  else
    "the air feels open to possibility"

/-- Mood-phrase selection, written out as the spec's §4.3 priority list
(happy-set, sad-set, angry-set, first match wins, else default).
Argument is the lowercased (stripped) mood. -/
def moodPhraseSpec (mood : String) : String :=
  if happyKeys.any (fun k => strHas mood k) then
    "your energy feels bright and contagious"
  else if sadKeys.any (fun k => strHas mood k) then
    "be gentle with yourselfâ€”small steps are still progress"
  else if angryKeys.any (fun k => strHas mood k) then
    "take a breath; let movement help shift the heat"
  else
    "youâ€™re steady and presentâ€”keep following the simple good"

/-- Python truthiness of an optional string (`None` and `""` are falsy). -/
def truthyStr : Option String → Bool
  | none => false
  | some s => !(s == "")

/-- Normalized weather shape returned by `get_weather` (`main.py` lines 58-68). -/
structure WeatherResult where
  city : Option String
  country : Option String
  temp : Option ℚ
  feels_like : Option ℚ
  humidity : Option ℚ
  wind : Option ℚ
  weather_main : Option String
  weather_desc : Option String
  icon : Option String
  deriving DecidableEq, Repr

/-- Provider JSON `sys` object. -/
structure OWSys where
  country : Option String
  deriving DecidableEq, Repr

/-- Provider JSON `main` object. -/
structure OWMain where
  temp : Option ℚ
  feels_like : Option ℚ
  humidity : Option ℚ
  deriving DecidableEq, Repr

/-- Provider JSON `wind` object. -/
structure OWWind where
  speed : Option ℚ
  deriving DecidableEq, Repr

/-- Provider JSON `weather[i]` object. -/
structure OWWeatherItem where
  main : Option String
  description : Option String
  icon : Option String
  deriving DecidableEq, Repr

/-- Provider JSON top-level object (missing keys are `none`). -/
structure OWData where
  name : Option String
  sys : Option OWSys
  main : Option OWMain
  wind : Option OWWind
  weather : Option (List OWWeatherItem)
  deriving DecidableEq, Repr

/-- An HTTP response from the weather provider. -/
structure ProviderResp where
  status : ℕ
  body : String
  data : OWData
  deriving DecidableEq, Repr

/-- `HTTPException(status_code, detail)`. -/
structure HttpError where
  status : ℕ
  detail : String
  deriving DecidableEq, Repr

/-- Normalization of the provider JSON (`main.py` lines 58-68):
`(data.get("weather") or [{}])[0]` means a missing or empty `weather`
array yields an empty item. -/
def normalizeOW (data : OWData) : WeatherResult :=
  let w0 : OWWeatherItem :=
    match data.weather with
    | some (item :: _) => item
    | some [] => ⟨none, none, none⟩
    | none => ⟨none, none, none⟩
  { city := data.name
    country := (data.sys.map OWSys.country).join
    temp := (data.main.map OWMain.temp).join
    feels_like := (data.main.map OWMain.feels_like).join
    humidity := (data.main.map OWMain.humidity).join
    wind := (data.wind.map OWWind.speed).join
    weather_main := w0.main
    weather_desc := w0.description
    icon := w0.icon }

/-- `GET /api/weather` handler (`main.py` lines 39-73).
`api_key` is the query parameter, `envKey` is `os.getenv("OPENWEATHER_API_KEY")`,
and `provider` is the outbound `requests.get` oracle (taking city and key;
`Except.error` models a network exception with message `str(e)`).
The second component counts outbound network calls performed. -/
def get_weather (city : String) (api_key envKey : Option String)
    (provider : String → String → Except String ProviderResp) :
    Except HttpError WeatherResult × ℕ :=
  let key := if truthyStr api_key then api_key else envKey
  if truthyStr key = false then
    (Except.error
      ⟨500, "OPENWEATHER_API_KEY not set on server; provide ?api_key=..."⟩, 0)
  else
    match provider city (key.getD "") with
    | Except.error e => (Except.error ⟨500, e⟩, 1)
    | Except.ok r =>
      if r.status ≠ 200 then (Except.error ⟨r.status, r.body⟩, 1)
      else (Except.ok (normalizeOW r.data), 1)

/-- A Python exception reaching one of the `except` clauses of
`test_database`: either an `ImportError` from `from database import db`,
or any other exception carrying its `str(e)` rendering. -/
inductive PyExn where
  | importErr : PyExn
  | exn : String → PyExn
  deriving DecidableEq, Repr

/-- The optional database handle `db`: `name` is `db.name` when
`hasattr(db, 'name')`, and `collections` is the outcome of
`db.list_collection_names()` (error carries `str(e)`). -/
structure DbHandle where
  name : Option String
  collections : Except String (List String)
  deriving Repr

/-- The fixed-shape report returned by `GET /test` (`main.py` lines 141-148).
`database_url`/`database_name` start as Python `None`, hence `Option`. -/
structure DiagResponse where
  backend : String
  database : String
  database_url : Option String
  database_name : Option String
  connection_status : String
  collections : List String
  deriving DecidableEq, Repr

/-- `GET /test` handler (`main.py` lines 138-179).
`importDb` is the outcome of `from database import db` (`Except.error`
models an exception during import, `Except.ok` the resulting optional
handle); `envUrl`/`envName` are `os.getenv("DATABASE_URL")` /
`os.getenv("DATABASE_NAME")`. The status strings reproduce the file's
literal (mojibake) code points. -/
def test_database (importDb : Except PyExn (Option DbHandle))
    (envUrl envName : Option String) : DiagResponse :=
  let r0 : DiagResponse :=
    { backend := "âœ… Running"
      database := "âŒ Not Available"
      database_url := none
      database_name := none
      connection_status := "Not Connected"
      collections := [] }
  let r1 :=
    match importDb with
    | Except.error PyExn.importErr =>
      { r0 with
        database := "âŒ Database module not found (run enable-database first)" }
    | Except.error (PyExn.exn m) =>
      { r0 with database := "âŒ Error: " ++ m.take 50 }
    | Except.ok none =>
      { r0 with
        database := "âš ï¸  Available but not initialized" }
    | Except.ok (some db) =>
      let r :=
        { r0 with
          database := "âœ… Available"
          database_url := some "âœ… Configured"
          database_name := some (db.name.getD "âœ… Connected")
          connection_status := "Connected" }
      match db.collections with
      | Except.ok cols =>
        { r with
          collections := cols.take 10
          database := "âœ… Connected & Working" }
      | Except.error m =>
        { r with
          database := "âš ï¸  Connected but Error: " ++ m.take 50 }
  { r1 with
    database_url :=
      some (if truthyStr envUrl then "âœ… Set" else "âŒ Not Set")
    database_name :=
      some (if truthyStr envName then "âœ… Set" else "âŒ Not Set") }

/-- The fallback keyword counts `(p, n)` (`main.py` lines 86-87). -/
def fallbackCounts (text : String) : ℕ × ℕ :=
  let lower := lowerStr (pyStrip text)
  (positives.countP (fun w => strHas lower w),
   negatives.countP (fun w => strHas lower w))

/-!
Verification development for a small FastAPI backend (`src/main.py`).

The file shallowly embeds the four request handlers the specification
documents — `analyze_sentiment`, `vibe_note`, `get_weather` and
`test_database` — as pure Lean functions and proves the specified
properties about them.

Modelling conventions:
* Python `str` is Lean `String`; string literals reproduce the exact
  code points of the source file (the file is double-encoded, so the
  emoji literals are mojibake sequences such as "ðŸ˜Š";
  we embed those exact characters).
* Python floats are modelled as exact rationals `ℚ` (the spec states the
  score formulas as exact arithmetic).
* `str.strip`/`str.lower` are modelled over ASCII (the keyword tables the
  handlers consult are ASCII apart from the fixed mojibake sequences,
  which both functions leave unchanged in the relevant cases).
* The optional VADER analyzer is an oracle `polarity : String → ℚ`
  returning the compound score, together with an availability flag.
* Exceptions become `Except`; the outbound HTTP call of `get_weather`
  becomes an oracle, and the handler additionally reports how many
  network calls it performed.
-/

example : analyze_sentiment false (fun _ => 0) "I am so happy and great" =
    ⟨"POSITIVE", 4/5⟩ := by
  have h0 : ¬ (pyStrip "I am so happy and great" = "") := by decide
  have hp : positives.countP
      (fun w => strHas (lowerStr (pyStrip "I am so happy and great")) w) = 2 := by decide
  have hn : negatives.countP
      (fun w => strHas (lowerStr (pyStrip "I am so happy and great")) w) = 0 := by decide
  simp only [analyze_sentiment, h0, hp, hn, if_false, Bool.false_eq_true]
  norm_num

example : analyze_sentiment true (fun _ => 19996/100000) "x" =
    ⟨"NEUTRAL", 1/5⟩ := by
  have h0 : ¬ (pyStrip "x" = "") := by decide
  simp only [analyze_sentiment, h0, if_false]
  norm_num [pyRound4, roundHalfEven]

example : analyze_sentiment true (fun _ => 0) "   " = ⟨"NEUTRAL", 0⟩ := by
  have h0 : pyStrip "   " = "" := by decide
  simp [analyze_sentiment, h0]

lemma string_eq_of_data (s t : String) (h : s.data = t.data) : s = t := by
  cases s; cases t; exact congrArg String.mk h

lemma leadsWith_iff_append (n h : List Char) :
    leadsWith n h = true ↔ ∃ t, h = n ++ t := by
  induction n generalizing h with
  | nil => simp [leadsWith]
  | cons a as ih =>
    cases h with
    | nil => simp [leadsWith]
    | cons b bs =>
      simp only [leadsWith, Bool.and_eq_true, beq_iff_eq, ih, List.cons_append,
        List.cons.injEq]
      constructor
      · rintro ⟨rfl, t, rfl⟩; exact ⟨t, rfl, rfl⟩
      · rintro ⟨t, rfl, rfl⟩; exact ⟨rfl, t, rfl⟩

lemma hasSub_iff_append (n h : List Char) :
    hasSub n h = true ↔ ∃ a b, h = a ++ n ++ b := by
  induction h with
  | nil =>
    constructor
    · intro he
      have hn : n = [] := by simpa [hasSub, List.isEmpty_iff] using he
      exact ⟨[], [], by simp [hn]⟩
    · rintro ⟨a, b, hab⟩
      have h1 : a ++ n ++ b = [] := hab.symm
      simp only [List.append_eq_nil] at h1
      simp [hasSub, List.isEmpty_iff, h1.1.2]
  | cons c cs ih =>
    simp only [hasSub, Bool.or_eq_true, leadsWith_iff_append, ih]
    constructor
    · rintro (⟨t, ht⟩ | ⟨a, b, hb⟩)
      · exact ⟨[], t, by simp [ht]⟩
      · exact ⟨c :: a, b, by simp [hb]⟩
    · rintro ⟨a, b, hab⟩
      cases a with
      | nil => exact Or.inl ⟨b, by simpa using hab⟩
      | cons x xs =>
        simp only [List.cons_append, List.cons.injEq] at hab
        exact Or.inr ⟨xs, b, hab.2⟩

/-- `strHas s w` is exactly the literal-substring relation: some split
`s = a ++ w ++ b` exists (matches Python's `w in s`). -/
lemma strHas_iff_append (s w : String) :
    strHas s w = true ↔ ∃ a b : String, s = a ++ w ++ b := by
  rw [strHas, hasSub_iff_append]
  constructor
  · rintro ⟨A, B, hAB⟩
    refine ⟨⟨A⟩, ⟨B⟩, string_eq_of_data _ _ ?_⟩
    simp [String.data_append, hAB]
  · rintro ⟨a, b, rfl⟩
    exact ⟨a.data, b.data, by simp [String.data_append]⟩

/-- `vibe_note` is the fixed template applied to the two phrase selectors. -/
lemma vibe_note_eq (mood : String) (wm wd : Option String) :
    vibe_note mood wm wd =
      "Today, " ++ weatherPhraseSpec (lowerStr (wm.getD "")) (lowerStr (wd.getD ""))
        ++ "; " ++ moodPhraseSpec (lowerStr (pyStrip mood)) ++ "." := rfl

/-- The weather phrase is always one of the six fixed phrases. -/
lemma weatherPhraseSpec_mem (wm wd : String) :
    weatherPhraseSpec wm wd ∈ weatherPhrases := by
  unfold weatherPhraseSpec
  split_ifs <;> decide

/-- The mood phrase is always one of the four fixed phrases. -/
lemma moodPhraseSpec_mem (mood : String) :
    moodPhraseSpec mood ∈ moodPhrases := by
  unfold moodPhraseSpec
  split_ifs <;> decide

example : vibe_note "happy" (some "light rain") (some "") =
    "Today, the rhythm of the rain sets a calm tempo; your energy feels bright and contagious." := by
  decide

/-- `roundHalfEven` is within one half of its argument. -/
lemma roundHalfEven_close (q : ℚ) : |(roundHalfEven q : ℚ) - q| ≤ 1/2 := by
  have h0 : ((⌊q⌋ : ℤ) : ℚ) ≤ q := Int.floor_le q
  have h1 : q < ((⌊q⌋ : ℤ) : ℚ) + 1 := Int.lt_floor_add_one q
  unfold roundHalfEven
  split_ifs <;> (rw [abs_le]; constructor <;> push_cast <;> linarith)

/-- A string with a nonempty left part is a nonempty concatenation. -/
lemma append_ne_empty (s t : String) (h : s.data ≠ []) : s ++ t ≠ "" := by
  intro he
  apply h
  have hd := congrArg String.data he
  rw [String.data_append] at hd
  have h0 : ("" : String).data = [] := rfl
  rw [h0] at hd
  exact (List.append_eq_nil.mp hd).1

/-- The fallback result, phrased over `fallbackCounts`. -/
lemma analyze_fallback_eq (polarity : String → ℚ) (text : String)
    (h : ¬ (pyStrip text = "")) :
    analyze_sentiment false polarity text =
      (if (fallbackCounts text).1 > (fallbackCounts text).2 then
        ⟨"POSITIVE", min 1 (6/10 + (1/10) *
          (((fallbackCounts text).1 : ℚ) - ((fallbackCounts text).2 : ℚ)))⟩
      else if (fallbackCounts text).2 > (fallbackCounts text).1 then
        ⟨"NEGATIVE", min 1 (6/10 + (1/10) *
          (((fallbackCounts text).2 : ℚ) - ((fallbackCounts text).1 : ℚ)))⟩
      else ⟨"NEUTRAL", 1/2⟩) := by
  unfold analyze_sentiment
  rw [if_neg h]
  rfl

/-- C3: for every input text that is empty or whitespace-only after
trimming, `analyze_sentiment` returns exactly `{label: NEUTRAL, score: 0.0}`
on both the lexicon path and the fallback path (the check happens before
either path runs). -/
theorem classify_empty_neutral (analyzerAvailable : Bool)
    (polarity : String → ℚ) (text : String) (h : pyStrip text = "") :
    analyze_sentiment analyzerAvailable polarity text = ⟨"NEUTRAL", 0⟩ := by
  simp [analyze_sentiment, h]

/-- C3 witness: the whitespace-only input `" \t\n "` on the lexicon path. -/
theorem classify_empty_neutral_witness :
    analyze_sentiment true (fun _ => 1) " \t\n " = ⟨"NEUTRAL", 0⟩ :=
  classify_empty_neutral true (fun _ => 1) " \t\n " (by decide)

/-- C1: with the analyzer unavailable and a non-empty (after trimming)
text, `analyze_sentiment` counts how many entries of the fixed positive
table and of the fixed negative table occur as literal case-insensitive
substrings of the lowercased text (each table entry contributing 1, per
the code's sum of membership tests), and returns POSITIVE with score
`min(1, 0.6 + 0.1*(p-n))` when `p > n`, NEGATIVE with
`min(1, 0.6 + 0.1*(n-p))` when `n > p`, and NEUTRAL with `0.5` when
`p = n`; `strHas` is exactly the literal-substring relation, and
`classify("I am so happy and great")` yields POSITIVE with score `0.8`. -/
theorem fallback_classify_spec :
    (∀ s w : String, strHas s w = true ↔ ∃ a b : String, s = a ++ w ++ b)
    ∧ (∀ (polarity : String → ℚ) (text : String), ¬ (pyStrip text = "") →
        analyze_sentiment false polarity text =
          (let lower := lowerStr (pyStrip text)
           let p := positives.countP (fun w => strHas lower w)
           let n := negatives.countP (fun w => strHas lower w)
           if p > n then
             ⟨"POSITIVE", min 1 (6/10 + (1/10) * ((p : ℚ) - (n : ℚ)))⟩
           else if n > p then
             ⟨"NEGATIVE", min 1 (6/10 + (1/10) * ((n : ℚ) - (p : ℚ)))⟩
           else ⟨"NEUTRAL", 1/2⟩))
    ∧ analyze_sentiment false (fun _ => 0) "I am so happy and great" =
        ⟨"POSITIVE", 8/10⟩ := by
  refine ⟨strHas_iff_append, ?_, ?_⟩
  · intro polarity text h
    unfold analyze_sentiment
    rw [if_neg h]
    rfl
  · have h0 : ¬ (pyStrip "I am so happy and great" = "") := by decide
    have hp : positives.countP
        (fun w => strHas (lowerStr (pyStrip "I am so happy and great")) w) = 2 := by
      decide
    have hn : negatives.countP
        (fun w => strHas (lowerStr (pyStrip "I am so happy and great")) w) = 0 := by
      decide
    simp only [analyze_sentiment, h0, hp, hn, if_false, Bool.false_eq_true]
    norm_num

/-- C1 witness: the fallback formula applied to `"Bad weather"`
(one negative keyword, zero positive ones). -/
theorem fallback_classify_spec_witness :
    analyze_sentiment false (fun _ => 0) "Bad weather" =
      (let lower := lowerStr (pyStrip "Bad weather")
       let p := positives.countP (fun w => strHas lower w)
       let n := negatives.countP (fun w => strHas lower w)
       if p > n then
         ⟨"POSITIVE", min 1 (6/10 + (1/10) * ((p : ℚ) - (n : ℚ)))⟩
       else if n > p then
         ⟨"NEGATIVE", min 1 (6/10 + (1/10) * ((n : ℚ) - (p : ℚ)))⟩
       else ⟨"NEUTRAL", 1/2⟩) :=
  fallback_classify_spec.2.1 (fun _ => 0) "Bad weather" (by decide)

/-- C5: on the fallback path with non-empty trimmed input, the score is in
`[0, 1]` whenever the keyword counts differ, and is exactly `0.5` when they
are equal (including both zero). -/
theorem fallback_score_bounds (polarity : String → ℚ) (text : String)
    (h : ¬ (pyStrip text = "")) :
    ((fallbackCounts text).1 ≠ (fallbackCounts text).2 →
      0 ≤ (analyze_sentiment false polarity text).score ∧
      (analyze_sentiment false polarity text).score ≤ 1) ∧
    ((fallbackCounts text).1 = (fallbackCounts text).2 →
      (analyze_sentiment false polarity text).score = 1/2) := by
  rw [analyze_fallback_eq polarity text h]
  generalize (fallbackCounts text).1 = p
  generalize (fallbackCounts text).2 = n
  rcases Nat.lt_trichotomy p n with h1 | h1 | h1
  · rw [if_neg (by omega), if_pos (by omega)]
    constructor
    · intro _
      have hc : (p : ℚ) + 1 ≤ (n : ℚ) := by exact_mod_cast h1
      exact ⟨le_min (by norm_num) (by linarith), min_le_left _ _⟩
    · intro he; omega
  · rw [if_neg (by omega), if_neg (by omega)]
    exact ⟨fun hne => absurd h1 hne, fun _ => rfl⟩
  · rw [if_pos (by omega)]
    constructor
    · intro _
      have hc : (n : ℚ) + 1 ≤ (p : ℚ) := by exact_mod_cast h1
      exact ⟨le_min (by norm_num) (by linarith), min_le_left _ _⟩
    · intro he; omega

/-- C5 witness: the bounds at `"I am so happy and great"` (counts 2 and 0)
and the exact `0.5` at `"nothing here"` (counts 0 and 0). -/
theorem fallback_score_bounds_witness :
    (0 ≤ (analyze_sentiment false (fun _ => 0) "I am so happy and great").score ∧
      (analyze_sentiment false (fun _ => 0) "I am so happy and great").score ≤ 1) ∧
    (analyze_sentiment false (fun _ => 0) "nothing here").score = 1/2 :=
  ⟨(fallback_score_bounds (fun _ => 0) "I am so happy and great" (by decide)).1
      (by decide),
   (fallback_score_bounds (fun _ => 0) "nothing here" (by decide)).2 (by decide)⟩

/-- C2 as stated is false: consistency of the label with the *returned*
(rounded) score fails at compound `0.19996`, a value in `[-1, 1]`, which
rounds to score `0.2` while the label is computed from the unrounded
compound and stays NEUTRAL. -/
theorem lexicon_consistency_cex :
    ¬ (∀ (polarity : String → ℚ) (text : String),
        ¬ (pyStrip text = "") →
        -1 ≤ polarity (pyStrip text) → polarity (pyStrip text) ≤ 1 →
        ((2/10 ≤ (analyze_sentiment true polarity text).score →
            (analyze_sentiment true polarity text).label = "POSITIVE") ∧
         ((analyze_sentiment true polarity text).score ≤ -(2/10) →
            (analyze_sentiment true polarity text).label = "NEGATIVE"))) := by
  intro hcl
  have h0 : ¬ (pyStrip "x" = "") := by decide
  have heval : analyze_sentiment true (fun _ => 19996/100000) "x" =
      ⟨"NEUTRAL", 1/5⟩ := by
    simp only [analyze_sentiment, h0, if_false]
    norm_num [pyRound4, roundHalfEven]
  have hlabel : (analyze_sentiment true (fun _ => 19996/100000) "x").label =
      "NEUTRAL" := by rw [heval]
  have hscore : (analyze_sentiment true (fun _ => 19996/100000) "x").score =
      1/5 := by rw [heval]
  have h2 := (hcl (fun _ => 19996/100000) "x" h0 (by norm_num) (by norm_num)).1
  rw [hscore] at h2
  have h3 := h2 (by norm_num)
  rw [hlabel] at h3
  exact absurd h3 (by decide)

/-- C2 amended: on the lexicon path with non-empty trimmed text, the
returned score is the compound rounded to 4 decimal places (an integer
multiple of `1/10000` within `1/2` ulp-unit of `10000 * compound`), and
the label follows the `0.2` thresholding rule applied to the *unrounded*
compound (so consistency with the returned score can fail only where
rounding crosses a threshold). -/
theorem lexicon_label_score (polarity : String → ℚ) (text : String)
    (h : ¬ (pyStrip text = "")) :
    (analyze_sentiment true polarity text).score =
      pyRound4 (polarity (pyStrip text)) ∧
    (analyze_sentiment true polarity text).label =
      (if 2/10 ≤ polarity (pyStrip text) then "POSITIVE"
       else if polarity (pyStrip text) ≤ -(2/10) then "NEGATIVE"
       else "NEUTRAL") ∧
    (∃ k : ℤ, (analyze_sentiment true polarity text).score = (k : ℚ) / 10000 ∧
      |(k : ℚ) - polarity (pyStrip text) * 10000| ≤ 1/2) := by
  have he : analyze_sentiment true polarity text =
      ⟨(if 2/10 ≤ polarity (pyStrip text) then "POSITIVE"
        else if polarity (pyStrip text) ≤ -(2/10) then "NEGATIVE"
        else "NEUTRAL"),
       pyRound4 (polarity (pyStrip text))⟩ := by
    unfold analyze_sentiment
    rw [if_neg h]
    rfl
  refine ⟨by rw [he], by rw [he],
    ⟨roundHalfEven (polarity (pyStrip text) * 10000), by rw [he]; rfl, ?_⟩⟩
  exact roundHalfEven_close (polarity (pyStrip text) * 10000)

/-- C2 amended witness: compound `1/2` on input `"ok"`. -/
theorem lexicon_label_score_witness :
    (analyze_sentiment true (fun _ => (1:ℚ)/2) "ok").score =
      pyRound4 ((1:ℚ)/2) ∧
    (analyze_sentiment true (fun _ => (1:ℚ)/2) "ok").label =
      (if (2:ℚ)/10 ≤ (1:ℚ)/2 then "POSITIVE"
       else if (1:ℚ)/2 ≤ -(2/10) then "NEGATIVE"
       else "NEUTRAL") ∧
    (∃ k : ℤ, (analyze_sentiment true (fun _ => (1:ℚ)/2) "ok").score =
        (k : ℚ) / 10000 ∧
      |(k : ℚ) - (1:ℚ)/2 * 10000| ≤ 1/2) :=
  lexicon_label_score (fun _ => (1:ℚ)/2) "ok" (by decide)

/-- C4: `vibe_note` always returns exactly the template
`"Today, {weather_phrase}; {mood_phrase}."` where the weather phrase is
selected from the lowercased inputs by the first-match-wins priority chain
(rain/drizzle in weatherMain; cloud in weatherMain or overcast in
weatherDesc; clear; snow; storm/thunder; else generic) and the mood phrase
by the happy/sad/angry tables; in particular the rain/happy example
produces the rain phrase joined with the happy phrase. -/
theorem vibe_note_template (mood : String) (wm wd : Option String) :
    vibe_note mood wm wd =
      "Today, " ++
        weatherPhraseSpec (lowerStr (wm.getD "")) (lowerStr (wd.getD ""))
        ++ "; " ++ moodPhraseSpec (lowerStr (pyStrip mood)) ++ "." ∧
    vibe_note "happy" (some "light rain") (some "") =
      "Today, " ++ "the rhythm of the rain sets a calm tempo" ++ "; " ++
        "your energy feels bright and contagious" ++ "." :=
  ⟨vibe_note_eq mood wm wd, by decide⟩

/-- C9: every output of `vibe_note` lies in the fixed list of
6 × 4 = 24 template sentences, starts with `"Today, "`, ends with `"."`,
and is never empty. -/
theorem vibe_note_range (mood : String) (wm wd : Option String) :
    vibe_note mood wm wd ∈
      weatherPhrases.flatMap (fun w => moodPhrases.map
        (fun m => "Today, " ++ w ++ "; " ++ m ++ ".")) ∧
    (weatherPhrases.flatMap (fun w => moodPhrases.map
        (fun m => "Today, " ++ w ++ "; " ++ m ++ "."))).length = 24 ∧
    (∃ r : String, vibe_note mood wm wd = "Today, " ++ r) ∧
    (∃ r : String, vibe_note mood wm wd = r ++ ".") ∧
    vibe_note mood wm wd ≠ "" := by
  have hw := weatherPhraseSpec_mem (lowerStr (wm.getD "")) (lowerStr (wd.getD ""))
  have hm := moodPhraseSpec_mem (lowerStr (pyStrip mood))
  refine ⟨?_, rfl, ?_, ?_, ?_⟩
  · rw [vibe_note_eq]
    exact List.mem_flatMap.mpr ⟨_, hw, List.mem_map.mpr ⟨_, hm, rfl⟩⟩
  · refine ⟨weatherPhraseSpec (lowerStr (wm.getD "")) (lowerStr (wd.getD ""))
      ++ "; " ++ moodPhraseSpec (lowerStr (pyStrip mood)) ++ ".", ?_⟩
    rw [vibe_note_eq]
    apply string_eq_of_data
    simp [String.data_append, List.append_assoc]
  · exact ⟨"Today, " ++
      weatherPhraseSpec (lowerStr (wm.getD "")) (lowerStr (wd.getD ""))
      ++ "; " ++ moodPhraseSpec (lowerStr (pyStrip mood)), vibe_note_eq mood wm wd⟩
  · rw [vibe_note_eq]
    apply append_ne_empty
    intro hd
    have h7 : ("Today, " ++
        weatherPhraseSpec (lowerStr (wm.getD "")) (lowerStr (wd.getD ""))
        ++ "; " ++ moodPhraseSpec (lowerStr (pyStrip mood))).data =
        ("Today, " : String).data ++
          (weatherPhraseSpec (lowerStr (wm.getD "")) (lowerStr (wd.getD ""))).data
          ++ ("; " : String).data ++ (moodPhraseSpec (lowerStr (pyStrip mood))).data := by
      simp [String.data_append]
    rw [h7] at hd
    have h8 := (List.append_eq_nil.mp
      (List.append_eq_nil.mp ((List.append_eq_nil.mp hd).1)).1).1
    exact absurd h8 (by decide)

/-- C8: the sentiment classifier and the vibe note generator are
deterministic — identical inputs (with the same analyzer availability and
analyzer behaviour) give identical outputs; both are pure functions of
their arguments in this model. -/
theorem handlers_deterministic :
    (∀ (analyzerAvailable : Bool) (polarity : String → ℚ) (t₁ t₂ : String),
      t₁ = t₂ →
      analyze_sentiment analyzerAvailable polarity t₁ =
        analyze_sentiment analyzerAvailable polarity t₂) ∧
    (∀ (m₁ m₂ : String) (wm₁ wm₂ wd₁ wd₂ : Option String),
      m₁ = m₂ → wm₁ = wm₂ → wd₁ = wd₂ →
      vibe_note m₁ wm₁ wd₁ = vibe_note m₂ wm₂ wd₂) :=
  ⟨fun _ _ _ _ h => by rw [h],
   fun _ _ _ _ _ _ h1 h2 h3 => by rw [h1, h2, h3]⟩

/-- C8 witness: repeated identical calls at concrete inputs. -/
theorem handlers_deterministic_witness :
    analyze_sentiment false (fun _ => 0) "hi" =
      analyze_sentiment false (fun _ => 0) "hi" ∧
    vibe_note "happy" none none = vibe_note "happy" none none :=
  ⟨handlers_deterministic.1 false (fun _ => 0) "hi" "hi" rfl,
   handlers_deterministic.2 "happy" "happy" none none none none rfl rfl rfl⟩

/-- C6: when the query parameter carries no (truthy) API key and the
process configuration carries none either, `get_weather` fails with the
HTTP 500 configuration error and performs zero outbound network calls. -/
theorem weather_no_key (city : String) (api_key envKey : Option String)
    (provider : String → String → Except String ProviderResp)
    (h1 : truthyStr api_key = false) (h2 : truthyStr envKey = false) :
    get_weather city api_key envKey provider =
      (Except.error
        ⟨500, "OPENWEATHER_API_KEY not set on server; provide ?api_key=..."⟩,
       0) := by
  simp [get_weather, h1, h2]

/-- C6 witness: no query key, `OPENWEATHER_API_KEY` set to the empty
string (falsy in Python), a provider that would answer if called. -/
theorem weather_no_key_witness :
    get_weather "Paris" none (some "")
        (fun _ _ => Except.ok ⟨200, "", ⟨none, none, none, none, none⟩⟩) =
      (Except.error
        ⟨500, "OPENWEATHER_API_KEY not set on server; provide ?api_key=..."⟩,
       0) :=
  weather_no_key "Paris" none (some "")
    (fun _ _ => Except.ok ⟨200, "", ⟨none, none, none, none, none⟩⟩)
    (by decide) (by decide)

set_option maxRecDepth 8000 in
/-- C7: the diagnostics handler is total over every probe outcome —
including any exception a probe raises — always reporting the fixed-shape
record with the backend marked running; exceptions are rendered into the
`database` status string (truncated `str(e)` with the matching prefix),
and the status string is never empty. -/
theorem diagnostics_total (importDb : Except PyExn (Option DbHandle))
    (envUrl envName : Option String) :
    (test_database importDb envUrl envName).backend = "âœ… Running" ∧
    (test_database importDb envUrl envName).database ≠ "" ∧
    (∀ m : String,
      (test_database (Except.error (PyExn.exn m)) envUrl envName).database =
        "âŒ Error: " ++ m.take 50) ∧
    (∀ nm : Option String, ∀ m : String,
      (test_database (Except.ok (some ⟨nm, Except.error m⟩)) envUrl envName).database =
        "âš ï¸  Connected but Error: " ++ m.take 50) ∧
    (test_database (Except.error PyExn.importErr) envUrl envName).database =
      "âŒ Database module not found (run enable-database first)" := by
  refine ⟨?_, ?_, fun m => rfl, fun nm m => rfl, rfl⟩
  · rcases importDb with e | odb
    · cases e <;> rfl
    · rcases odb with _ | db
      · rfl
      · rcases db with ⟨nm, cols⟩
        rcases cols with m | cs <;> rfl
  · rcases importDb with e | odb
    · cases e with
      | importErr =>
        show ("âŒ Database module not found (run enable-database first)" : String) ≠ ""
        decide
      | exn m =>
        show ("âŒ Error: " ++ m.take 50 : String) ≠ ""
        exact append_ne_empty _ _ (by decide)
    · rcases odb with _ | db
      · show ("âš ï¸  Available but not initialized" : String) ≠ ""
        decide
      · rcases db with ⟨nm, cols⟩
        rcases cols with m | cs
        · show ("âš ï¸  Connected but Error: " ++ m.take 50 : String) ≠ ""
          exact append_ne_empty _ _ (by decide)
        · show ("âœ… Connected & Working" : String) ≠ ""
          decide

/-- C7 witness: a database handle whose collection listing raises. -/
theorem diagnostics_total_witness :
    (test_database (Except.ok (some ⟨some "appdb", Except.error "boom"⟩))
        none none).database =
      "âš ï¸  Connected but Error: " ++ ("boom").take 50 :=
  (diagnostics_total (Except.ok (some ⟨some "appdb", Except.error "boom"⟩))
    none none).2.2.2.1 (some "appdb") "boom"

/-- C10 is false as literally stated: the final `database_url` /
`database_name` fields do not depend only on whether the environment
variables are *set* — a variable set to the empty string (Python-falsy)
renders `"âŒ Not Set"` while another set variable renders
`"âœ… Set"`. -/
theorem diagnostics_env_cex :
    (some "" : Option String) ≠ none ∧
    (test_database (Except.error PyExn.importErr) (some "") (some "")).database_url =
      some "âŒ Not Set" ∧
    (test_database (Except.error PyExn.importErr) (some "x") (some "x")).database_url =
      some "âœ… Set" :=
  ⟨by decide, rfl, rfl⟩

/-- C10 amended: for every probe outcome, the probe-assigned
`database_url` / `database_name` values are overwritten before the report
is returned; the final fields depend only on the Python truthiness of
`DATABASE_URL` / `DATABASE_NAME` (non-empty value present →
`"âœ… Set"`, else `"âŒ Not Set"`). -/
theorem diagnostics_env_fields (importDb : Except PyExn (Option DbHandle))
    (envUrl envName : Option String) :
    (test_database importDb envUrl envName).database_url =
      some (if truthyStr envUrl then "âœ… Set" else "âŒ Not Set") ∧
    (test_database importDb envUrl envName).database_name =
      some (if truthyStr envName then "âœ… Set" else "âŒ Not Set") :=
  ⟨rfl, rfl⟩

/-- C9 witness: the range facts at the all-default input. -/
theorem vibe_note_range_witness :
    vibe_note "" none none ∈
      weatherPhrases.flatMap (fun w => moodPhrases.map
        (fun m => "Today, " ++ w ++ "; " ++ m ++ ".")) ∧
    (weatherPhrases.flatMap (fun w => moodPhrases.map
        (fun m => "Today, " ++ w ++ "; " ++ m ++ "."))).length = 24 ∧
    (∃ r : String, vibe_note "" none none = "Today, " ++ r) ∧
    (∃ r : String, vibe_note "" none none = r ++ ".") ∧
    vibe_note "" none none ≠ "" :=
  vibe_note_range "" none none
